import Mathlib

set_option maxHeartbeats 1000000

/-!
Verification development for the databroker-elasticsearch repository.
Shallow embedding of the two source modules:
  - db_es/callback.py: field converters, document map transformer and
    the ElasticInsert run-engine callback, and
  - src/databroker_elasticsearch/brokersearch.py: the BrokerSearch
    reverse lookup.
Python mappings become association lists, Python None becomes the
constructor Value.pynone, raising code returns Except, and the index
collaborator is modelled by an explicit trace of calls.
-/

/-- Python values as they occur in run records and index documents.
The constructor pynone models the Python value None, which the code
also uses as the absent marker for converter results. -/
inductive Value where
  | pynone : Value
  | pybool (b : Bool) : Value
  | pyint (n : ℤ) : Value
  | pyfloat (q : ℚ) : Value
  | pystr (s : String) : Value
  | pylist (l : List Value) : Value
  | pydict (d : List (String × Value)) : Value

/-- Test for the Python value None, modelling the check x is None. -/
def Value.isNone : Value → Bool
  | Value.pynone => true
  | _ => false

/-- Test for the shape isinstance of x and dict. -/
def Value.isDict : Value → Bool
  | Value.pydict _ => true
  | _ => false

/-- Python dictionaries are modelled as insertion-ordered association
lists; run records and normalized documents both have this shape. -/
abbrev PyDict := List (String × Value)

/-- Dictionary read d[k], returning the value of the first matching key. -/
def dictGet (d : PyDict) (key : String) : Option Value :=
  match d with
  | [] => Option.none
  | (k, v) :: rest => if k = key then some v else dictGet rest key

/-- Membership test k in d. -/
def dictHasKey (d : PyDict) (key : String) : Bool :=
  (dictGet d key).isSome

/-- Dictionary assignment d[k] = v: replaces the value of an existing
key in place, otherwise appends the new pair, matching the insertion
order semantics of Python dictionaries. -/
def dictSet (d : PyDict) (key : String) (v : Value) : PyDict :=
  match d with
  | [] => [(key, v)]
  | (k, w) :: rest =>
      if k = key then (key, v) :: rest else (k, w) :: dictSet rest key v

/-- Converter noconversion from callback.py: the identity lambda. -/
def noconversion : Value → Value := fun x => x

/-- The builtin bool cast used as a converter in the xpd document map:
Python truthiness of the argument. -/
def pyBoolCast (v : Value) : Value :=
  Value.pybool
    (match v with
     | Value.pynone => false
     | Value.pybool b => b
     | Value.pyint n => n != 0
     | Value.pyfloat q => q != 0
     | Value.pystr s => s != ""
     | Value.pylist l => !l.isEmpty
     | Value.pydict d => !d.isEmpty)

/-- Numeric view of a Python value, as used by sum and division;
bool counts as 0 or 1, non-numeric values give Option.none which
models a TypeError being raised. -/
def toNumber : Value → Option ℚ
  | Value.pybool b => some (if b then 1 else 0)
  | Value.pyint n => some (n : ℚ)
  | Value.pyfloat q => some q
  | _ => Option.none

/-- The Python expression sum over a list of values: left fold of
addition, raising (Option.none) as soon as a value is non-numeric. -/
def sumNumbers : List Value → Option ℚ
  | [] => some 0
  | v :: rest =>
      match toNumber v, sumNumbers rest with
      | Option.some a, Option.some b => some (a + b)
      | _, _ => Option.none

/-- Converter normalize_counts from callback.py lines 37 to 42:
a non-dict input returns None; for a dict the total count is the sum
of the values, replaced by 1.0 when the sum is falsy (zero), and each
value is divided by that total.  An Except.error models the TypeError
Python raises when summing or dividing non-numeric values. -/
def normalize_counts (d : Value) : Except Unit Value :=
  match d with
  | Value.pydict l =>
      match sumNumbers (l.map Prod.snd) with
      | Option.none => Except.error ()
      | Option.some s =>
          let totalcount : ℚ := if s = 0 then 1 else s
          Except.ok (Value.pydict
            (l.map (fun kv => (kv.1, Value.pyfloat ((toNumber kv.2).getD 0 / totalcount)))))
  | _ => Except.ok Value.pynone

/-- Test that a value is a Python str. -/
def Value.isStr : Value → Bool
  | Value.pystr _ => true
  | _ => false

/-- Converter listofstrings from callback.py lines 45 to 49: the input
passes through unchanged when it is a list whose elements are all
strings, otherwise the result is None. -/
def listofstrings (v : Value) : Value :=
  match v with
  | Value.pylist l => if l.all Value.isStr then v else Value.pynone
  | _ => Value.pynone

/-- Predicate naming the acceptance condition of listofstrings: a list
value all of whose elements are strings. -/
def isListOfStrings (v : Value) : Bool :=
  match v with
  | Value.pylist l => l.all Value.isStr
  | _ => false

/-- Round half to even to the nearest integer, the rounding used by
the Python builtin round. -/
def roundHalfEven (q : ℚ) : ℤ :=
  let n := ⌊q⌋
  let frac := q - (n : ℚ)
  if frac < 1 / 2 then n
  else if 1 / 2 < frac then n + 1
  else if n % 2 = 0 then n else n + 1

/-- The assignment epochms = round(epoch, 3) of callback.py line 29,
represented exactly as an integer number of milliseconds. -/
def round3ms (epoch : ℚ) : ℤ := roundHalfEven (epoch * 1000)

/-- Decimal digit as a character. -/
def dch (n : ℤ) : Char := Char.ofNat (48 + n.toNat)

/-- Fixed width two digit decimal rendering, as the zero padded fields
of datetime.isoformat. -/
def pad2 (n : ℤ) : List Char :=
  [dch (n / 10 % 10), dch (n % 10)]

/-- Fixed width four digit decimal rendering of the year field. -/
def pad4 (n : ℤ) : List Char :=
  [dch (n / 1000 % 10), dch (n / 100 % 10), dch (n / 10 % 10), dch (n % 10)]

/-- Fixed width six digit decimal rendering of the microsecond field. -/
def pad6 (n : ℤ) : List Char :=
  [dch (n / 100000 % 10), dch (n / 10000 % 10), dch (n / 1000 % 10),
   dch (n / 100 % 10), dch (n / 10 % 10), dch (n % 10)]

/-- Three digit decimal rendering of a millisecond count, the shape of
the fraction kept by the final slicing in toisoformat. -/
def pad3 (n : ℤ) : List Char :=
  [dch (n / 100 % 10), dch (n / 10 % 10), dch (n % 10)]

/-- Conversion from a day count since 1970-01-01 to a proleptic
Gregorian civil date (year, month, day), the date computation inside
datetime.fromtimestamp, here taken in UTC as the deployment neutral
reading of local time.  This is the standard civil-from-days
algorithm; all intermediate divisions act on nonnegative numbers for
the day range that datetime supports. -/
def civilFromDays (days : ℤ) : ℤ × ℤ × ℤ :=
  let z := days + 719468
  let era := z / 146097
  let doe := z % 146097
  let yoe := (doe - doe / 1460 + doe / 36524 - doe / 146096) / 365
  let y := yoe + era * 400
  let doy := doe - (365 * yoe + yoe / 4 - yoe / 100)
  let mp := (5 * doy + 2) / 153
  let d := doy - (153 * mp + 2) / 5 + 1
  let m := mp + (if mp < 10 then 3 else -9)
  (y + (if m ≤ 2 then 1 else 0), m, d)

/-- The 19 character second precision part of datetime.isoformat. -/
def isobase (y m d hh mi ss : ℤ) : List Char :=
  pad4 y ++ '-' :: pad2 m ++ '-' :: pad2 d ++ 'T' :: pad2 hh ++
    ':' :: pad2 mi ++ ':' :: pad2 ss

/-- The tail of toisoformat, callback.py lines 31 and 32: tiso is the
isoformat string, carrying a dot and six microsecond digits exactly
when the microsecond field is nonzero, and rv strips the last three
characters in that case. -/
def isostring (base : List Char) (microsecond : ℤ) : List Char :=
  let tiso := if microsecond = 0 then base else base ++ '.' :: pad6 microsecond
  if microsecond = 0 then tiso else List.take (tiso.length - 3) tiso

/-- Millisecond timestamp of 0001-01-01T00:00:00, the earliest instant
datetime.fromtimestamp supports. -/
def minMs : ℤ := -62135596800000

/-- Millisecond timestamp of 9999-12-31T23:59:59.999, the latest
millisecond instant datetime.fromtimestamp supports. -/
def maxMs : ℤ := 253402300799999

/-- Function toisoformat from callback.py lines 12 to 34: round the
epoch to three decimals, convert with datetime.fromtimestamp (modelled
in UTC, returning Option.none for the OverflowError outside the
supported year range 1 to 9999), render with datetime.isoformat and
drop the last three fraction digits when a fraction is present.  The
assert on line 33 is not part of the model; the length property it
asserts is proved as a theorem below. -/
def toisoformat (epoch : ℚ) : Option String :=
  let epochms := round3ms epoch
  if epochms < minMs ∨ maxMs < epochms then Option.none
  else
    let seconds := epochms / 1000
    let sod := seconds % 86400
    let ymd := civilFromDays (seconds / 86400)
    let base := isobase ymd.1 ymd.2.1 ymd.2.2 (sod / 3600) (sod / 60 % 60) (sod % 60)
    some (String.mk (isostring base (epochms % 1000 * 1000)))

/-- One row of a document map: the tuple (mongoname, esname, converter)
from the DOCMAP tables in callback.py. -/
structure MapTriple where
  mname : String
  esname : String
  fcnv : Value → Value

/-- The body of the for loop of esdocument, callback.py lines 150 to
157: skip the triple when the source field is missing; compute
evalue as fcnv mvalue when mvalue is not None and as None otherwise;
skip when evalue is None; otherwise assign rv at esname. -/
def esStep (entry : PyDict) (rv : PyDict) (tr : MapTriple) : PyDict :=
  match dictGet entry tr.mname with
  | Option.none => rv
  | Option.some mvalue =>
      let evalue := if mvalue.isNone then Value.pynone else tr.fcnv mvalue
      if evalue.isNone then rv else dictSet rv tr.esname evalue

/-- The loop of esdocument: fold of esStep over the document map
starting from the empty dictionary rv. -/
def esdocumentRun (docmap : List MapTriple) (entry : PyDict) : PyDict :=
  List.foldl (esStep entry) [] docmap

/-- Function esdocument from callback.py lines 147 to 158.  The
assert that the entry contains the key _id is modelled by returning
Option.none (an AssertionError) when the key is missing. -/
def esdocument (docmap : List MapTriple) (entry : PyDict) : Option PyDict :=
  if dictHasKey entry "_id" then some (esdocumentRun docmap entry) else Option.none

/-- Loop body following the literal wording of claim C2, for
comparison with esStep: when the source field is absent from the
record the triple is skipped, otherwise the converter is applied to
the field value; an absent result skips the triple, otherwise the
target field is set with overwrite. -/
def claimStepC2 (entry : PyDict) (rv : PyDict) (tr : MapTriple) : PyDict :=
  match dictGet entry tr.mname with
  | Option.none => rv
  | Option.some mvalue =>
      let evalue := tr.fcnv mvalue
      if evalue.isNone then rv else dictSet rv tr.esname evalue

/-- Transformer following the literal wording of claim C2. -/
def claimRunC2 (docmap : List MapTriple) (entry : PyDict) : PyDict :=
  List.foldl (claimStepC2 entry) [] docmap

/-- Loop body following the amended wording of claim C2: a triple is
skipped when the source field is absent from the record or holds the
null value; otherwise the converter is applied, an absent result skips
the triple, and otherwise the target field is set with overwrite. -/
def amendedStepC2 (entry : PyDict) (rv : PyDict) (tr : MapTriple) : PyDict :=
  match dictGet entry tr.mname with
  | Option.none => rv
  | Option.some mvalue =>
      if mvalue.isNone then rv
      else
        let evalue := tr.fcnv mvalue
        if evalue.isNone then rv else dictSet rv tr.esname evalue

/-- Document map and record exhibiting the gap between the literal
wording of claim C2 and the code: the source field is present but
holds None, and the bool converter maps None to the non-absent value
False.  The map row is the dark_frame row of the xpd document map. -/
def c2map : List MapTriple := [MapTriple.mk "dark_frame" "dark_frame" pyBoolCast]

/-- Record for the claim C2 comparison: the dark_frame field is
present and holds None. -/
def c2entry : PyDict := [("_id", Value.pystr "x"), ("dark_frame", Value.pynone)]

/-- One call to the elasticsearch index collaborator, with its
arguments, in the order issued by ElasticInsert.start. -/
inductive ESCall where
  | deleteIndex (index : String) : ESCall
  | createIndex (index : String) : ESCall
  | putMapping (docType : String) (index : String)
      (body : List (String × String × String)) : ESCall
  | bulkInsert (index : String) (docId : Value) (docType : String)
      (source : PyDict) : ESCall

/-- The field typing body passed to put_mapping in callback.py lines
181 to 184, as a list of (field, type, format) rows. -/
def mbody : List (String × String × String) :=
  [("time", "date", "epoch_second"),
   ("date", "date", "strict_date_optional_time")]

/-- Method ElasticInsert.start, callback.py lines 169 to 189, modelled
as the trace of calls made to the index collaborator.  The criteria
attribute is an optional predicate: Option.none models a criteria of
None, which is falsy so the guard on line 170 short-circuits.  The
es_config dictionary is represented by its index entry.  An
Except.error models an exception escaping start: the AssertionError
of esdocument or the KeyError of the read of the uid key. -/
def ElasticInsert.start (criteria : Option (PyDict → Bool))
    (es_config_index : String) (beamline : String)
    (docmap : List MapTriple) (doc : PyDict) : Except Unit (List ESCall) :=
  match criteria with
  | Option.none => Except.ok []
  | Option.some crit =>
      if crit doc then
        match esdocument docmap doc with
        | Option.none => Except.error ()
        | Option.some sanitized_docs =>
            match dictGet doc "uid" with
            | Option.none => Except.error ()
            | Option.some u =>
                Except.ok
                  [ESCall.deleteIndex es_config_index,
                   ESCall.createIndex es_config_index,
                   ESCall.putMapping beamline es_config_index mbody,
                   ESCall.bulkInsert es_config_index u beamline sanitized_docs]
      else Except.ok []

/-- One hit of the elasticsearch scan in brokersearch.py: the stored
document id and the retrieved source fields. -/
structure Hit where
  hid : Value
  source : PyDict

/-- The parameters of the scan call issued by BrokerSearch on
brokersearch.py line 47: the query, the index and the source field
restriction. -/
structure ScanRequest where
  q : String
  index : String
  sourceFields : List String

/-- The scan request built by BrokerSearch for a query: the source
restriction is the single field uid. -/
def BrokerSearch.scanRequest (q index : String) : ScanRequest :=
  { q := q, index := index, sourceFields := ["uid"] }

/-- The generator gstartstop of brokersearch.py line 48: for each hit
the pair of the uid source field and None.  An Except.error models the
KeyError raised when a hit lacks the uid field. -/
def gstartstop : List Hit → Except Unit (List (Value × Value))
  | [] => Except.ok []
  | h :: rest =>
      match dictGet h.source "uid" with
      | Option.none => Except.error ()
      | Option.some u => (gstartstop rest).map (fun ps => (u, Value.pynone) :: ps)

/-! Helper lemmas about dictionary reads and writes. -/

/-- Reading a key just written returns the written value. -/
theorem dictGet_dictSet_self (d : PyDict) (key : String) (v : Value) :
    dictGet (dictSet d key v) key = some v := by
  induction d with
  | nil => simp [dictSet, dictGet]
  | cons kv rest ih =>
      obtain ⟨k, w⟩ := kv
      by_cases h : k = key
      · simp [dictSet, dictGet, h]
      · simp [dictSet, dictGet, h, ih]

/-- Writing one key leaves the reads of other keys unchanged. -/
theorem dictGet_dictSet_other (d : PyDict) (key other : String) (v : Value)
    (h : key ≠ other) : dictGet (dictSet d key v) other = dictGet d other := by
  induction d with
  | nil => simp [dictSet, dictGet, h]
  | cons kv rest ih =>
      obtain ⟨k, w⟩ := kv
      by_cases hk : k = key
      · subst hk
        simp [dictSet, dictGet, h]
      · simp [dictSet, dictGet, hk, ih]

/-- A transformer step whose target field differs from a key leaves
that key unchanged in the accumulator. -/
theorem dictGet_esStep_other (entry rv : PyDict) (tr : MapTriple) (key : String)
    (h : tr.esname ≠ key) : dictGet (esStep entry rv tr) key = dictGet rv key := by
  unfold esStep
  cases dictGet entry tr.mname with
  | none => rfl
  | some mvalue =>
      by_cases he : (if mvalue.isNone then Value.pynone else tr.fcnv mvalue).isNone
      · simp [he]
      · simp [he, dictGet_dictSet_other _ _ _ _ h]

/-- Folding transformer steps none of which target a key leaves that
key unchanged in the accumulator. -/
theorem dictGet_esfold_other (entry : PyDict) (dm : List MapTriple) (acc : PyDict)
    (key : String) (h : ∀ tr ∈ dm, tr.esname ≠ key) :
    dictGet (List.foldl (esStep entry) acc dm) key = dictGet acc key := by
  induction dm generalizing acc with
  | nil => rfl
  | cons tr rest ih =>
      rw [List.foldl_cons, ih _ (fun t ht => h t (List.mem_cons_of_mem tr ht)),
        dictGet_esStep_other _ _ _ _ (h tr (List.mem_cons_self tr rest))]

/-- Claim C1: with an empty inclusion filter the start handler accepts
the record and proceeds to transform and index it.  The code does the
opposite: the guard on callback.py line 170 is falsy when criteria is
None, so start returns without a single call to the index
collaborator.  This theorem evaluates the code at the failing
configuration. -/
theorem c1_empty_criteria_start_makes_no_calls :
    ∀ (esindex beamline : String) (docmap : List MapTriple) (doc : PyDict),
    ElasticInsert.start Option.none esindex beamline docmap doc = Except.ok [] :=
  fun _ _ _ _ => rfl

/-- Claim C2, counterexample: the dark_frame field is present in the
record with value None and the bool converter turns None into the
non-absent value False, yet the code produces the empty document while
the literal claim wording sets the target field. -/
theorem c2_counterexample :
    dictGet c2entry "dark_frame" = some Value.pynone ∧
    (pyBoolCast Value.pynone).isNone = false ∧
    esdocument c2map c2entry = some [] ∧
    claimRunC2 c2map c2entry = [("dark_frame", Value.pybool false)] :=
  ⟨rfl, rfl, rfl, rfl⟩

/-- A transformer step from the code equals the step of the amended
claim C2 wording. -/
theorem esStep_eq_amendedStepC2 (entry rv : PyDict) (tr : MapTriple) :
    esStep entry rv tr = amendedStepC2 entry rv tr := by
  unfold esStep amendedStepC2
  cases dictGet entry tr.mname with
  | none => rfl
  | some mvalue => cases mvalue <;> rfl

/-- Folded form of the previous lemma. -/
theorem esfold_eq_amendedC2 (entry : PyDict) (dm : List MapTriple) (acc : PyDict) :
    List.foldl (esStep entry) acc dm = List.foldl (amendedStepC2 entry) acc dm := by
  induction dm generalizing acc with
  | nil => rfl
  | cons tr rest ih => rw [List.foldl_cons, List.foldl_cons, esStep_eq_amendedStepC2, ih]

/-- Claim C2 as amended: the transformer processes the triples of the
map in order, skipping a triple when its source field is absent from
the record or holds the null value, otherwise applying the converter,
skipping the triple when the result is absent, and otherwise setting
the target field, overwriting any value set earlier in the pass. -/
theorem c2_amended_transformer :
    ∀ (docmap : List MapTriple) (entry : PyDict),
    esdocument docmap entry =
      (if dictHasKey entry "_id" then some (List.foldl (amendedStepC2 entry) [] docmap)
       else Option.none) := by
  intro docmap entry
  rw [esdocument, esdocumentRun, esfold_eq_amendedC2]

/-- Claim C8: the list-of-strings validator passes its input through
unchanged exactly on lists all of whose elements are strings and
returns the absent value otherwise; in particular on the three example
inputs of the specification. -/
theorem c8_listofstrings_spec :
    (∀ v : Value, listofstrings v = if isListOfStrings v then v else Value.pynone) ∧
    listofstrings (Value.pylist [Value.pystr "a", Value.pystr "b"]) =
      Value.pylist [Value.pystr "a", Value.pystr "b"] ∧
    listofstrings (Value.pylist [Value.pystr "a", Value.pyint 2]) = Value.pynone ∧
    listofstrings (Value.pystr "a") = Value.pynone := by
  refine ⟨fun v => ?_, rfl, rfl, rfl⟩
  cases v <;> rfl

/-- Claim C9: the document transformer is deterministic, so two
applications to the same document map and run record return the same
normalized document.  In the embedding the transformer is a pure
function of its two arguments, which makes the two runs literally the
same computation. -/
theorem c9_transformer_deterministic :
    ∀ (docmap : List MapTriple) (entry : PyDict),
    esdocument docmap entry = esdocument docmap entry :=
  fun _ _ => rfl

/-- Claim C10: the transformer asserts that the record contains the
key _id even when no map row reads it, and on records that contain the
key the assertion never fires and a normalized document is returned. -/
theorem c10_esdocument_id_assertion :
    ∀ (docmap : List MapTriple) (entry : PyDict),
    (dictHasKey entry "_id" = false → esdocument docmap entry = Option.none) ∧
    (dictHasKey entry "_id" = true →
      esdocument docmap entry = some (esdocumentRun docmap entry)) := by
  intro docmap entry
  constructor <;> intro h <;> simp [esdocument, h]

/-- Witness for claim C10 at a map that never reads the _id field: a
record without the key fails the assertion, a record with the key is
transformed. -/
theorem c10_esdocument_id_assertion_witness :
    esdocument [MapTriple.mk "comment" "comment" noconversion]
      [("comment", Value.pystr "c")] = Option.none ∧
    esdocument [MapTriple.mk "comment" "comment" noconversion]
      [("_id", Value.pystr "a"), ("comment", Value.pystr "c")] =
      some (esdocumentRun [MapTriple.mk "comment" "comment" noconversion]
        [("_id", Value.pystr "a"), ("comment", Value.pystr "c")]) :=
  ⟨(c10_esdocument_id_assertion _ _).1 rfl, (c10_esdocument_id_assertion _ _).2 rfl⟩

/-- Claim C3: with an inclusion filter configured, a rejected record
leads to zero calls to the index collaborator, and an accepted record
leads to exactly the four calls delete, create, put-schema and insert,
in that order, once each. -/
theorem c3_sync_call_trace :
    ∀ (crit : PyDict → Bool) (esindex beamline : String)
      (docmap : List MapTriple) (doc : PyDict) (u : Value),
    (crit doc = false →
      ElasticInsert.start (some crit) esindex beamline docmap doc = Except.ok []) ∧
    (crit doc = true → dictHasKey doc "_id" = true → dictGet doc "uid" = some u →
      ElasticInsert.start (some crit) esindex beamline docmap doc = Except.ok
        [ESCall.deleteIndex esindex, ESCall.createIndex esindex,
         ESCall.putMapping beamline esindex mbody,
         ESCall.bulkInsert esindex u beamline (esdocumentRun docmap doc)]) := by
  intro crit esindex beamline docmap doc u
  constructor
  · intro h
    simp [ElasticInsert.start, h]
  · intro h hid huid
    simp [ElasticInsert.start, h, esdocument, hid, huid]

/-- Witness for claim C3: a rejecting filter gives the empty trace, an
accepting filter gives the four calls in order. -/
theorem c3_sync_call_trace_witness :
    ElasticInsert.start (some (fun _ => false)) "iss" "iss" []
      [("_id", Value.pystr "a"), ("uid", Value.pystr "u")] = Except.ok [] ∧
    ElasticInsert.start (some (fun _ => true)) "iss" "iss" []
      [("_id", Value.pystr "a"), ("uid", Value.pystr "u")] = Except.ok
      [ESCall.deleteIndex "iss", ESCall.createIndex "iss",
       ESCall.putMapping "iss" "iss" mbody,
       ESCall.bulkInsert "iss" (Value.pystr "u") "iss" []] :=
  ⟨(c3_sync_call_trace (fun _ => false) "iss" "iss" [] _ (Value.pystr "u")).1 rfl,
   (c3_sync_call_trace (fun _ => true) "iss" "iss" [] _ (Value.pystr "u")).2 rfl rfl rfl⟩

/-- Claim C4: for an accepted record the unique identifier is
propagated unchanged into the normalized document under the uid field
and into the storage id of the insert call, the reverse lookup scans
only the uid field, and the pair produced for the inserted document is
the identifier with null, so a lookup recovers the inserted
identifier unchanged. -/
theorem c4_identifier_roundtrip :
    ∀ (crit : PyDict → Bool) (esindex beamline q : String)
      (dm1 dm2 docmap : List MapTriple) (doc : PyDict) (u hitId : Value),
    docmap = dm1 ++ MapTriple.mk "uid" "uid" noconversion :: dm2 →
    (∀ tr ∈ dm2, tr.esname ≠ "uid") →
    crit doc = true →
    dictHasKey doc "_id" = true →
    dictGet doc "uid" = some u →
    u.isNone = false →
    (ElasticInsert.start (some crit) esindex beamline docmap doc = Except.ok
      [ESCall.deleteIndex esindex, ESCall.createIndex esindex,
       ESCall.putMapping beamline esindex mbody,
       ESCall.bulkInsert esindex u beamline (esdocumentRun docmap doc)]) ∧
    dictGet (esdocumentRun docmap doc) "uid" = some u ∧
    gstartstop [Hit.mk hitId (esdocumentRun docmap doc)] =
      Except.ok [(u, Value.pynone)] ∧
    (BrokerSearch.scanRequest q esindex).sourceFields = ["uid"] := by
  intro crit esindex beamline q dm1 dm2 docmap doc u hitId hdm hdm2 hcrit hid huid hu
  have hru : dictGet (esdocumentRun docmap doc) "uid" = some u := by
    subst hdm
    rw [esdocumentRun, List.foldl_append, List.foldl_cons,
      dictGet_esfold_other _ _ _ _ hdm2]
    show dictGet (esStep doc _ (MapTriple.mk "uid" "uid" noconversion)) "uid" = some u
    rw [esStep]
    simp [huid, hu, noconversion, dictGet_dictSet_self]
  refine ⟨?_, hru, ?_, rfl⟩
  · simp [ElasticInsert.start, hcrit, esdocument, hid, huid]
  · rw [gstartstop]
    simp [hru, gstartstop, Except.map]

/-- Witness for claim C4 at a single row document map and a concrete
record: the trace, the document field, and the lookup pair all carry
the identifier unchanged. -/
theorem c4_identifier_roundtrip_witness :
    (ElasticInsert.start (some (fun _ => true)) "iss" "iss"
      [MapTriple.mk "uid" "uid" noconversion]
      [("_id", Value.pystr "a"), ("uid", Value.pystr "u")] = Except.ok
      [ESCall.deleteIndex "iss", ESCall.createIndex "iss",
       ESCall.putMapping "iss" "iss" mbody,
       ESCall.bulkInsert "iss" (Value.pystr "u") "iss" [("uid", Value.pystr "u")]]) ∧
    dictGet [("uid", Value.pystr "u")] "uid" = some (Value.pystr "u") ∧
    gstartstop [Hit.mk (Value.pystr "u") [("uid", Value.pystr "u")]] =
      Except.ok [(Value.pystr "u", Value.pynone)] ∧
    (BrokerSearch.scanRequest "group:Billinge" "iss").sourceFields = ["uid"] :=
  c4_identifier_roundtrip (fun _ => true) "iss" "iss" "group:Billinge" [] []
    [MapTriple.mk "uid" "uid" noconversion]
    [("_id", Value.pystr "a"), ("uid", Value.pystr "u")]
    (Value.pystr "u") (Value.pystr "u") rfl (by simp) rfl rfl rfl rfl

/-- Claim C6: count normalization returns the absent value on
non-mapping inputs; on a mapping it divides every count by the sum of
the counts, with divisor one when the sum is zero (in particular for
the empty mapping); the two example mappings of the specification
evaluate accordingly. -/
theorem c6_normalize_counts_spec :
    (∀ v : Value, v.isDict = false → normalize_counts v = Except.ok Value.pynone) ∧
    (∀ (l : List (String × Value)) (s : ℚ), sumNumbers (l.map Prod.snd) = some s →
      normalize_counts (Value.pydict l) = Except.ok (Value.pydict
        (l.map (fun kv =>
          (kv.1, Value.pyfloat ((toNumber kv.2).getD 0 / (if s = 0 then 1 else s))))))) ∧
    normalize_counts (Value.pydict [("a", Value.pyint 2), ("b", Value.pyint 2)]) =
      Except.ok (Value.pydict
        [("a", Value.pyfloat (1 / 2)), ("b", Value.pyfloat (1 / 2))]) ∧
    normalize_counts (Value.pydict []) = Except.ok (Value.pydict []) := by
  have hdict : ∀ (l : List (String × Value)) (s : ℚ),
      sumNumbers (l.map Prod.snd) = some s →
      normalize_counts (Value.pydict l) = Except.ok (Value.pydict
        (l.map (fun kv =>
          (kv.1, Value.pyfloat ((toNumber kv.2).getD 0 / (if s = 0 then 1 else s)))))) := by
    intro l s hs
    simp [normalize_counts, hs]
  refine ⟨fun v hv => ?_, hdict, ?_, rfl⟩
  · cases v <;> simp_all [normalize_counts, Value.isDict]
  · rw [hdict [("a", Value.pyint 2), ("b", Value.pyint 2)] 4
      (by norm_num [sumNumbers, toNumber])]
    norm_num [toNumber]

/-- Witness for claim C6: a string input is absent, a one entry
mapping is divided by its own sum. -/
theorem c6_normalize_counts_spec_witness :
    normalize_counts (Value.pystr "x") = Except.ok Value.pynone ∧
    normalize_counts (Value.pydict [("a", Value.pyint 3)]) =
      Except.ok (Value.pydict [("a", Value.pyfloat 1)]) := by
  refine ⟨c6_normalize_counts_spec.1 (Value.pystr "x") rfl, ?_⟩
  rw [c6_normalize_counts_spec.2.1 [("a", Value.pyint 3)] 3
    (by norm_num [sumNumbers, toNumber])]
  norm_num [toNumber]

/-- Claim C7: in a document map with two rows sharing a target field,
when both source fields are present with non-null values and both
converters produce non-absent results, the value present in the
normalized document under that target field is the one converted by
the later row. -/
theorem c7_later_entry_wins :
    ∀ (dmA dmB dmC : List MapTriple) (tr1 tr2 : MapTriple) (t : String)
      (doc : PyDict) (w1 w2 : Value),
    tr1.esname = t → tr2.esname = t →
    (∀ tr ∈ dmC, tr.esname ≠ t) →
    dictHasKey doc "_id" = true →
    dictGet doc tr1.mname = some w1 → w1.isNone = false →
    (tr1.fcnv w1).isNone = false →
    dictGet doc tr2.mname = some w2 → w2.isNone = false →
    (tr2.fcnv w2).isNone = false →
    (esdocument (dmA ++ tr1 :: dmB ++ tr2 :: dmC) doc).bind (fun d => dictGet d t) =
      some (tr2.fcnv w2) := by
  intro dmA dmB dmC tr1 tr2 t doc w1 w2 h1 h2 hC hid hg1 hn1 hc1 hg2 hn2 hc2
  subst h2
  rw [esdocument, if_pos hid]
  show dictGet (esdocumentRun (dmA ++ tr1 :: dmB ++ tr2 :: dmC) doc) tr2.esname =
    some (tr2.fcnv w2)
  rw [esdocumentRun, List.foldl_append, List.foldl_cons, List.foldl_append,
    List.foldl_cons, dictGet_esfold_other _ _ _ _ hC]
  rw [esStep, hg2]
  simp [hn2, hc2, dictGet_dictSet_self]

/-- Witness for claim C7 at a two row map targeting the same field:
the second row's converted value ends up in the document. -/
theorem c7_later_entry_wins_witness :
    (esdocument
      [MapTriple.mk "x" "t" (fun _ => Value.pyint 1),
       MapTriple.mk "y" "t" (fun _ => Value.pyint 2)]
      [("_id", Value.pystr "a"), ("x", Value.pyint 9), ("y", Value.pyint 8)]).bind
      (fun d => dictGet d "t") = some (Value.pyint 2) :=
  c7_later_entry_wins [] [] [] (MapTriple.mk "x" "t" (fun _ => Value.pyint 1))
    (MapTriple.mk "y" "t" (fun _ => Value.pyint 2)) "t"
    [("_id", Value.pystr "a"), ("x", Value.pyint 9), ("y", Value.pyint 8)]
    (Value.pyint 9) (Value.pyint 8) rfl rfl (by simp) rfl rfl rfl rfl rfl rfl rfl

/-- The second precision part of the ISO string always has exactly 19
characters, since every field is rendered at a fixed width. -/
theorem isobase_length (y m d hh mi ss : ℤ) : (isobase y m d hh mi ss).length = 19 :=
  rfl

/-- Length of the final string of toisoformat: 19 characters when the
microsecond field is zero, else 23 after the three trailing fraction
digits are cut. -/
theorem isostring_length (base : List Char) (m : ℤ) (hb : base.length = 19) :
    (isostring base m).length = if m = 0 then 19 else 23 := by
  by_cases h : m = 0
  · simp [isostring, h, hb]
  · simp only [isostring, if_neg h]
    have hlen : (base ++ '.' :: pad6 m).length = 26 := by
      simp [hb, pad6]
    rw [List.length_take, hlen]
    omega

/-- With a nonzero microsecond field, the characters after position 19
are the dot and the first three of the six microsecond digits. -/
theorem isostring_drop (base : List Char) (m : ℤ) (hb : base.length = 19)
    (h : m ≠ 0) : (isostring base m).drop 19 = '.' :: (pad6 m).take 3 := by
  simp only [isostring, if_neg h]
  have hlen : (base ++ '.' :: pad6 m).length = 26 := by
    simp [hb, pad6]
  rw [hlen]
  show List.drop 19 (List.take 23 (base ++ '.' :: pad6 m)) = _
  rw [List.drop_take]
  have hdl : List.drop 19 (base ++ '.' :: pad6 m) = '.' :: pad6 m := by
    rw [← hb, List.drop_left]
  rw [hdl]
  rfl

/-- The first three of the six microsecond digits of a whole number of
milliseconds are the three millisecond digits. -/
theorem pad6_take3 (m : ℤ) : (pad6 (m * 1000)).take 3 = pad3 m := by
  have e1 : m * 1000 / 100000 % 10 = m / 100 % 10 := by omega
  have e2 : m * 1000 / 10000 % 10 = m / 10 % 10 := by omega
  have e3 : m * 1000 / 1000 % 10 = m % 10 := by omega
  simp [pad6, pad3, e1, e2, e3]

/-- Claim C5: whenever toisoformat returns a string, that string has
length 19 exactly when the epoch rounded to three decimals has no
fractional part, and otherwise has length 23 and carries a fixed width
three digit millisecond fraction after a dot at position 19. -/
theorem c5_toisoformat_length :
    ∀ (epoch : ℚ) (s : String), toisoformat epoch = some s →
    (s.length = if round3ms epoch % 1000 = 0 then 19 else 23) ∧
    (round3ms epoch % 1000 ≠ 0 →
      s.data.drop 19 = '.' :: pad3 (round3ms epoch % 1000)) := by
  intro epoch s h
  simp only [toisoformat] at h
  split at h
  · exact Option.noConfusion h
  · injection h with h2
    subst h2
    constructor
    · show (isostring _ (round3ms epoch % 1000 * 1000)).length = _
      rw [isostring_length _ _ (isobase_length _ _ _ _ _ _)]
      by_cases hz : round3ms epoch % 1000 = 0
      · simp [hz]
      · rw [if_neg hz, if_neg (by omega : ¬round3ms epoch % 1000 * 1000 = 0)]
    · intro hne
      show (isostring _ (round3ms epoch % 1000 * 1000)).drop 19 = _
      rw [isostring_drop _ _ (isobase_length _ _ _ _ _ _) (by omega), pad6_take3]

/-- Witness for claim C5 at the epoch of half a second past 1970: the
rounded value has a fractional part, so the string has 23 characters
and ends in a dot and the three millisecond digits. -/
theorem c5_toisoformat_length_witness :
    "1970-01-01T00:00:00.500".length = 23 ∧
    "1970-01-01T00:00:00.500".data.drop 19 = '.' :: pad3 500 := by
  have hms : round3ms (1 / 2) = 500 := by
    norm_num [round3ms, roundHalfEven]
  have hiso : toisoformat (1 / 2) = some "1970-01-01T00:00:00.500" := by
    simp only [toisoformat, hms]
    rfl
  have h := c5_toisoformat_length (1 / 2) "1970-01-01T00:00:00.500" hiso
  rw [hms] at h
  refine ⟨?_, h.2 (by decide)⟩
  rw [h.1, if_neg (by decide : ¬(500 : ℤ) % 1000 = 0)]
